import Mathlib

/-!
Verification development for the d3-force simulation driver
(`src/simulation.ts`, `src/util.ts`).

Modelling conventions:
* A JavaScript number that may be NaN (or an absent/undefined field, which
  behaves like NaN under `isNaN` and arithmetic) is modelled as `Option ℝ`,
  with `none` standing for NaN/undefined and `some r` for the real number r.
  Infinities are outside the model. Arithmetic on such values propagates
  `none` exactly as JS arithmetic propagates NaN.
* A node's `fx` field has JS type `number | null | undefined`; it is modelled
  as `Option (Option ℝ)`: the outer `none` is null/undefined (the `fx != null`
  test fails), `some w` is a present value, itself possibly NaN (`w = none`).
* The mutable `Simulation` object is modelled as a state record `Sim`
  threaded functionally through the methods.
* A registered force (a JS function with an optional `initialize` method,
  mutating the shared node array) is modelled as `Force`: an application map
  from alpha and the node list to an updated node list, plus an optional
  initializer consuming the node list and the random source.
-/

noncomputable section

/-- A simulation node (interface `SimulationNodeDatum` in `src/util.ts`).
Fields `x, y, vx, vy` are possibly-NaN numbers; `index` is unset before
initialization; `fx, fy` are `number | null | undefined`. -/
structure SimNode where
  index : Option ℕ := none
  x : Option ℝ := none
  y : Option ℝ := none
  vx : Option ℝ := none
  vy : Option ℝ := none
  fx : Option (Option ℝ) := none
  fy : Option (Option ℝ) := none
  deriving DecidableEq

instance : Inhabited SimNode := ⟨{}⟩

/-- JS addition on possibly-NaN numbers: NaN propagates. -/
def jsAdd : Option ℝ → Option ℝ → Option ℝ
  | some a, some b => some (a + b)
  | _, _ => none

/-- JS subtraction on possibly-NaN numbers: NaN propagates. -/
def jsSub : Option ℝ → Option ℝ → Option ℝ
  | some a, some b => some (a - b)
  | _, _ => none

/-- JS multiplication on possibly-NaN numbers: NaN propagates. -/
def jsMul : Option ℝ → Option ℝ → Option ℝ
  | some a, some b => some (a * b)
  | _, _ => none

/-- JS strict `<` where the right operand may be the +Infinity sentinel used
by `find` (modelled as `none` on the right); any comparison with NaN on the
left is false, and any real is below +Infinity. -/
def jsLt : Option ℝ → Option ℝ → Prop
  | some a, some b => a < b
  | some _, none => True
  | none, _ => False

instance : ∀ a b, Decidable (jsLt a b) := fun a b =>
  match a, b with
  | some a, some b => inferInstanceAs (Decidable (a < b))
  | some _, none => inferInstanceAs (Decidable True)
  | none, some _ => inferInstanceAs (Decidable False)
  | none, none => inferInstanceAs (Decidable False)

/-- Constant `initialRadius = 10` from `src/simulation.ts`. -/
def initialRadius : ℝ := 10

/-- Constant `initialAngle = Math.PI * (3 - Math.sqrt(5))` from
`src/simulation.ts`. -/
def initialAngle : ℝ := Real.pi * (3 - Real.sqrt 5)

/-- The phyllotaxis x-coordinate for index i:
`initialRadius * sqrt(0.5 + i) * cos(i * initialAngle)`. -/
def phyllotaxisX (i : ℕ) : ℝ :=
  initialRadius * Real.sqrt (0.5 + i) * Real.cos (i * initialAngle)

/-- The phyllotaxis y-coordinate for index i:
`initialRadius * sqrt(0.5 + i) * sin(i * initialAngle)`. -/
def phyllotaxisY (i : ℕ) : ℝ :=
  initialRadius * Real.sqrt (0.5 + i) * Real.sin (i * initialAngle)

/-- The loop body of `Simulation.initializeNodes` for the node at index i:
assign `index = i`; snap `x` to `fx` and `y` to `fy` when present; if either
coordinate is NaN, place both at the phyllotaxis position; if either velocity
component is NaN, zero both. -/
def initNode (i : ℕ) (nd : SimNode) : SimNode :=
  let nd1 := { nd with index := some i }
  let nd2 := match nd1.fx with
    | some w => { nd1 with x := w }
    | none => nd1
  let nd3 := match nd2.fy with
    | some w => { nd2 with y := w }
    | none => nd2
  let nd4 :=
    if nd3.x = none ∨ nd3.y = none then
      { nd3 with x := some (phyllotaxisX i), y := some (phyllotaxisY i) }
    else nd3
  if nd4.vx = none ∨ nd4.vy = none then
    { nd4 with vx := some 0, vy := some 0 }
  else nd4

/-- The `for` loop of `Simulation.initializeNodes`, starting at index k. -/
def initializeNodesFrom (k : ℕ) : List SimNode → List SimNode
  | [] => []
  | nd :: rest => initNode k nd :: initializeNodesFrom (k + 1) rest

/-- `Simulation.initializeNodes`: run the loop body on every node, with
indices counting from 0. -/
def initializeNodes (nodes : List SimNode) : List SimNode :=
  initializeNodesFrom 0 nodes

/-- A force bound to the simulation: its application (a JS function of
alpha, mutating the shared node array) and its optional `initialize`
method, which receives the node array and the random source and updates the
force's internal state. -/
inductive Force : Type where
  | mk : (ℝ → List SimNode → List SimNode) →
      Option (List SimNode → ℕ → Force) → Force

/-- Apply the force (call the JS force function with the given alpha). -/
def Force.run : Force → ℝ → List SimNode → List SimNode
  | Force.mk r _ => r

/-- The force's optional `initialize` method. -/
def Force.init : Force → Option (List SimNode → ℕ → Force)
  | Force.mk _ i => i

/-- Modelled from the spec: `src/lcg.ts` is imported by `src/simulation.ts`
but is not present under src; spec section 4.1 defines the default random
source as a linear congruential generator with multiplier 1664525, increment
1013904223, modulus 2^32 and initial state 1. The random source is modelled
by its current state, an element of ℕ. -/
def lcgNext (state : ℕ) : ℕ :=
  (1664525 * state + 1013904223) % 2 ^ 32

/-- Modelled from the spec: the value in [0,1) produced by the LCG state. -/
def lcgValue (state : ℕ) : ℝ :=
  (state : ℝ) / 2 ^ 32

/-- The simulation state: the private backing fields of class `Simulation`
(`_alpha`, `_alphaMin`, `_alphaDecay`, `_alphaTarget`, `_velocityDecay`,
`_nodes`, `_randomSource`) and the insertion-ordered force map `forces`,
modelled as an association list in insertion order. -/
structure Sim where
  _alpha : ℝ
  _alphaMin : ℝ
  _alphaDecay : ℝ
  _alphaTarget : ℝ
  _velocityDecay : ℝ
  _nodes : List SimNode
  _randomSource : ℕ
  forces : List (String × Force)

/-- A freshly constructed `Simulation`: the field initializers of the class
(`_alpha = 1`, `_alphaMin = 0.001`, `_alphaDecay = 1 - 0.001^(1/300)`,
`_alphaTarget = 0`, `_velocityDecay = 0.6`, no nodes, LCG random source,
no forces). -/
def Sim.fresh : Sim where
  _alpha := 1
  _alphaMin := 0.001
  _alphaDecay := 1 - (0.001 : ℝ) ^ ((1 : ℝ) / 300)
  _alphaTarget := 0
  _velocityDecay := 0.6
  _nodes := []
  _randomSource := 1
  forces := []

/-- The setter path of the `property` decorator in `src/util.ts`: check the
validator (throwing `Invalid value for <name>` on failure), apply the
transform, store the value, then run the `onSet` hook; the method returns the
owning simulation. A thrown error is modelled as `Except.error`, which leaves
the caller's state untouched. -/
def propertySet {τ : Type} (validator : τ → Prop) [DecidablePred validator]
    (transform : τ → τ) (assign : Sim → τ → Sim) (onSet : Sim → Sim)
    (name : String) (s : Sim) (v : τ) : Except String Sim :=
  if validator v then Except.ok (onSet (assign s (transform v)))
  else Except.error ("Invalid value for " ++ name)

/-- The getter path of the `property` decorator: read the stored value and
apply the transform to it. -/
def propertyGet {τ : Type} (transform : τ → τ) (read : Sim → τ) (s : Sim) : τ :=
  transform (read s)

/-- Setter `simulation.alpha(v)`: validator `0 ≤ v ≤ 1`, no transform. -/
def Sim.alphaSet (s : Sim) (v : ℝ) : Except String Sim :=
  propertySet (fun w => 0 ≤ w ∧ w ≤ 1) id
    (fun t w => { t with _alpha := w }) id "alpha" s v

/-- Getter `simulation.alpha()`. -/
def Sim.alphaGet (s : Sim) : ℝ := propertyGet id (fun t => t._alpha) s

/-- Setter `simulation.alphaMin(v)`: validator `0 ≤ v ≤ 1`, no transform. -/
def Sim.alphaMinSet (s : Sim) (v : ℝ) : Except String Sim :=
  propertySet (fun w => 0 ≤ w ∧ w ≤ 1) id
    (fun t w => { t with _alphaMin := w }) id "alphaMin" s v

/-- Getter `simulation.alphaMin()`. -/
def Sim.alphaMinGet (s : Sim) : ℝ := propertyGet id (fun t => t._alphaMin) s

/-- Setter `simulation.alphaDecay(v)`: validator `0 ≤ v ≤ 1`, no transform. -/
def Sim.alphaDecaySet (s : Sim) (v : ℝ) : Except String Sim :=
  propertySet (fun w => 0 ≤ w ∧ w ≤ 1) id
    (fun t w => { t with _alphaDecay := w }) id "alphaDecay" s v

/-- Getter `simulation.alphaDecay()`. -/
def Sim.alphaDecayGet (s : Sim) : ℝ := propertyGet id (fun t => t._alphaDecay) s

/-- Setter `simulation.alphaTarget(v)`: validator `0 ≤ v ≤ 1`, no transform. -/
def Sim.alphaTargetSet (s : Sim) (v : ℝ) : Except String Sim :=
  propertySet (fun w => 0 ≤ w ∧ w ≤ 1) id
    (fun t w => { t with _alphaTarget := w }) id "alphaTarget" s v

/-- Getter `simulation.alphaTarget()`. -/
def Sim.alphaTargetGet (s : Sim) : ℝ :=
  propertyGet id (fun t => t._alphaTarget) s

/-- Setter `simulation.velocityDecay(v)`: validator `0 ≤ v ≤ 1`, transform
`v ↦ 1 - v` applied before storing. -/
def Sim.velocityDecaySet (s : Sim) (v : ℝ) : Except String Sim :=
  propertySet (fun w => 0 ≤ w ∧ w ≤ 1) (fun w => 1 - w)
    (fun t w => { t with _velocityDecay := w }) id "velocityDecay" s v

/-- Getter `simulation.velocityDecay()`: the transform `w ↦ 1 - w` is also
applied to the stored value on read. -/
def Sim.velocityDecayGet (s : Sim) : ℝ :=
  propertyGet (fun w => 1 - w) (fun t => t._velocityDecay) s

/-- Method `Simulation.initializeForce`: if the force has an `initialize`
method, call it with the current nodes and the random source. -/
def Sim.initializeForce (s : Sim) (f : Force) : Force :=
  match f.init with
  | some g => g s._nodes s._randomSource
  | none => f

/-- The `onSet` hook of the `nodes` property: run `initializeNodes`, then
initialize every registered force with the freshly initialized nodes. -/
def nodesOnSet (t : Sim) : Sim :=
  let t2 := { t with _nodes := initializeNodes t._nodes }
  { t2 with forces := t2.forces.map (fun p => (p.1, t2.initializeForce p.2)) }

/-- Setter `simulation.nodes(arr)` through the `property` decorator: store
the array (no copy), then run the `onSet` hook. There is no validator, so
the call always succeeds. -/
def Sim.nodesSet (s : Sim) (arr : List SimNode) : Except String Sim :=
  propertySet (fun _ => True) id (fun t v => { t with _nodes := v })
    nodesOnSet "nodes" s arr

/-- The simulation state after `simulation.nodes(arr)` (the always-`ok`
result of `Sim.nodesSet`). -/
def Sim.setNodes (s : Sim) (arr : List SimNode) : Sim :=
  nodesOnSet { s with _nodes := arr }

/-- `forceSimulation(nodesData)`: a fresh simulation whose nodes are the
given array (defaulting to the empty array). -/
def forceSimulation (nodesData : Option (List SimNode)) : Sim :=
  Sim.fresh.setNodes (nodesData.getD [])

/-- Lookup in the insertion-ordered force map (`Map.get`). -/
def mapGet (name : String) (l : List (String × Force)) : Option Force :=
  (l.find? (fun p => p.1 = name)).map (fun p => p.2)

/-- Update in the insertion-ordered force map (`Map.set`): replace the value
at an existing key in place, otherwise append at the end. -/
def mapSet (name : String) (v : Force) : List (String × Force) →
    List (String × Force)
  | [] => [(name, v)]
  | p :: rest =>
    if p.1 = name then (p.1, v) :: rest else p :: mapSet name v rest

/-- Removal from the insertion-ordered force map (`Map.delete`). -/
def mapDelete (name : String) (l : List (String × Force)) :
    List (String × Force) :=
  l.filter (fun p => p.1 ≠ name)

/-- `simulation.force(name)` with one argument: return the registered force,
or the undefined sentinel (`none`) when no force has that name. -/
def Sim.forceGet (s : Sim) (name : String) : Option Force :=
  mapGet name s.forces

/-- `simulation.force(name, f)` with two arguments: a null force (`none`)
deletes the entry; otherwise the force is initialized with the current nodes
and random source and stored under the name. The simulation is returned. -/
def Sim.forceSet (s : Sim) (name : String) (f : Option Force) : Sim :=
  match f with
  | none => { s with forces := mapDelete name s.forces }
  | some f => { s with forces := mapSet name (s.initializeForce f) s.forces }

/-- The per-node integration step at the end of each tick iteration: with
`fx` null, `vx *= velocityDecay; x += vx` (note the velocity is decayed
first, then added); otherwise `x = fx; vx = 0`. Same for the y axis. -/
def integrateNode (vd : ℝ) (nd : SimNode) : SimNode :=
  let nd1 := match nd.fx with
    | none =>
      let v := jsMul nd.vx (some vd)
      { nd with vx := v, x := jsAdd nd.x v }
    | some w => { nd with x := w, vx := some 0 }
  match nd1.fy with
  | none =>
    let v := jsMul nd1.vy (some vd)
    { nd1 with vy := v, y := jsAdd nd1.y v }
  | some w => { nd1 with y := w, vy := some 0 }

/-- `this.forces.forEach((force) => force(this._alpha))`: apply every
registered force, in insertion order, to the node list. -/
def applyForces (a : ℝ) (forces : List (String × Force))
    (nodes : List SimNode) : List SimNode :=
  forces.foldl (fun ns p => p.2.run a ns) nodes

/-- One iteration of the `tick` loop: advance alpha, apply all forces with
the new alpha, then integrate the first n nodes (n is the node count
captured at the start of the `tick` call). -/
def tickIteration (n : ℕ) (s : Sim) : Sim :=
  let a := s._alpha + (s._alphaTarget - s._alpha) * s._alphaDecay
  let ns := applyForces a s.forces s._nodes
  let ns2 := (ns.take n).map (integrateNode s._velocityDecay) ++ ns.drop n
  { s with _alpha := a, _nodes := ns2 }

/-- The `for (k = 0; k < iterations; ++k)` loop of `tick`. -/
def tickLoop (n : ℕ) : ℕ → Sim → Sim
  | 0, s => s
  | k + 1, s => tickLoop n k (tickIteration n s)

/-- `simulation.tick(iterations?)`: capture the node count, default the
iteration count to 1, and run the loop. Returns the simulation. -/
def Sim.tick (s : Sim) (iterations : Option ℕ) : Sim :=
  tickLoop s._nodes.length (iterations.getD 1) s

/-- The squared-distance computation of `Simulation.find` for one node:
`dx = x - node.x; dy = y - node.y; d2 = dx * dx + dy * dy`, in JS
possibly-NaN arithmetic. -/
def findD2 (x y : ℝ) (nd : SimNode) : Option ℝ :=
  jsAdd (jsMul (jsSub (some x) nd.x) (jsSub (some x) nd.x))
    (jsMul (jsSub (some y) nd.y) (jsSub (some y) nd.y))

/-- The scan loop of `Simulation.find`: `bound` is the current radius
threshold (`none` is the +Infinity sentinel used when no radius was given),
`closest` the best node so far; a node strictly below the threshold becomes
the new closest and its squared distance the new threshold. -/
def findGo (x y : ℝ) : List SimNode → Option ℝ → Option SimNode →
    Option SimNode
  | [], _, closest => closest
  | nd :: rest, bound, closest =>
    if jsLt (findD2 x y nd) bound then findGo x y rest (findD2 x y nd) (some nd)
    else findGo x y rest bound closest

/-- `simulation.find(x, y, radius?)`: radius defaults to Infinity, otherwise
it is squared; then a linear scan keeps the node with the smallest squared
distance below the threshold, returning the undefined sentinel (`none`) when
no node qualified. -/
def Sim.find (s : Sim) (x y : ℝ) (radius : Option ℝ) : Option SimNode :=
  findGo x y s._nodes (radius.map (fun r => r * r)) none

/-- The coordinate against which the NaN test of `initializeNodes` is made:
`fx` when present (the snap `node.x = node.fx` happened just before),
otherwise the node's own `x`. -/
def snappedX (nd : SimNode) : Option ℝ :=
  match nd.fx with
  | some w => w
  | none => nd.x

/-- Same as `snappedX` for the y axis. -/
def snappedY (nd : SimNode) : Option ℝ :=
  match nd.fy with
  | some w => w
  | none => nd.y

lemma nodesSet_ok (s : Sim) (arr : List SimNode) :
    s.nodesSet arr = Except.ok (s.setNodes arr) := rfl

lemma mapGet_eq_none (name : String) (l : List (String × Force)) :
    mapGet name l = none ↔ ∀ p ∈ l, p.1 ≠ name := by
  induction l with
  | nil => simp [mapGet]
  | cons hd tl ih =>
    by_cases h : hd.1 = name
    · simp [mapGet, List.find?_cons_of_pos, h]
    · rw [mapGet, List.find?_cons_of_neg _ (by simpa using h)]
      rw [mapGet] at ih
      simp only [List.mem_cons]
      constructor
      · intro hn p hp
        rcases hp with hp | hp
        · exact hp ▸ h
        · exact (ih.mp hn) p hp
      · intro hall
        exact ih.mpr (fun p hp => hall p (Or.inr hp))

lemma mapGet_mapSet (name : String) (v : Force) (l : List (String × Force)) :
    mapGet name (mapSet name v l) = some v := by
  induction l with
  | nil => simp [mapGet, mapSet, List.find?_cons_of_pos]
  | cons hd tl ih =>
    by_cases h : hd.1 = name
    · simp [mapSet, h, mapGet, List.find?_cons_of_pos]
    · rw [mapSet, if_neg h, mapGet, List.find?_cons_of_neg _ (by simpa using h)]
      exact ih

lemma setNodes_nodes (s : Sim) (arr : List SimNode) :
    (s.setNodes arr)._nodes = initializeNodes arr := rfl

lemma initializeNodesFrom_length :
    ∀ (l : List SimNode) (k : ℕ), (initializeNodesFrom k l).length = l.length
  | [], _ => rfl
  | _ :: rest, k => by
    simp [initializeNodesFrom, initializeNodesFrom_length rest (k + 1)]

lemma initializeNodesFrom_get :
    ∀ (l : List SimNode) (k i : ℕ) (h : i < l.length)
      (h2 : i < (initializeNodesFrom k l).length),
      (initializeNodesFrom k l).get ⟨i, h2⟩ = initNode (k + i) (l.get ⟨i, h⟩)
  | nd :: rest, k, 0, _, _ => rfl
  | nd :: rest, k, i + 1, h, h2 => by
    have hr : i < rest.length := by simpa using h
    have hr2 : i < (initializeNodesFrom (k + 1) rest).length := by
      simpa [initializeNodesFrom_length] using hr
    have := initializeNodesFrom_get rest (k + 1) i hr hr2
    simpa [initializeNodesFrom, Nat.add_assoc, Nat.add_comm 1 i] using this

lemma initNode_index (i : ℕ) (nd : SimNode) : (initNode i nd).index = some i := by
  cases hfx : nd.fx <;> cases hfy : nd.fy <;>
    simp only [initNode, hfx, hfy] <;> split_ifs <;> rfl

lemma initNode_fx (i : ℕ) (nd : SimNode) : (initNode i nd).fx = nd.fx := by
  cases hfx : nd.fx <;> cases hfy : nd.fy <;>
    simp only [initNode, hfx, hfy] <;> split_ifs <;> rfl

lemma initNode_fy (i : ℕ) (nd : SimNode) : (initNode i nd).fy = nd.fy := by
  cases hfx : nd.fx <;> cases hfy : nd.fy <;>
    simp only [initNode, hfx, hfy] <;> split_ifs <;> rfl

lemma initNode_coords_of_nan (i : ℕ) (nd : SimNode)
    (h : snappedX nd = none ∨ snappedY nd = none) :
    (initNode i nd).x = some (phyllotaxisX i) ∧
    (initNode i nd).y = some (phyllotaxisY i) := by
  cases hfx : nd.fx <;> cases hfy : nd.fy <;>
    simp only [snappedX, snappedY, hfx, hfy] at h <;>
    simp only [initNode, hfx, hfy] <;> split_ifs <;> simp_all

lemma initNode_coords_of_num (i : ℕ) (nd : SimNode)
    (hx : snappedX nd ≠ none) (hy : snappedY nd ≠ none) :
    (initNode i nd).x = snappedX nd ∧ (initNode i nd).y = snappedY nd := by
  cases hfx : nd.fx <;> cases hfy : nd.fy <;>
    simp only [snappedX, snappedY, hfx, hfy] at hx hy <;>
    simp only [initNode, hfx, hfy, snappedX, snappedY] <;> split_ifs <;> simp_all

lemma initNode_coords_isSome (i : ℕ) (nd : SimNode) :
    (initNode i nd).x.isSome ∧ (initNode i nd).y.isSome := by
  by_cases h : snappedX nd = none ∨ snappedY nd = none
  · have := initNode_coords_of_nan i nd h
    simp [this.1, this.2]
  · push_neg at h
    have := initNode_coords_of_num i nd h.1 h.2
    rw [this.1, this.2]
    exact ⟨Option.isSome_iff_ne_none.mpr h.1, Option.isSome_iff_ne_none.mpr h.2⟩

lemma initNode_vel_of_nan (i : ℕ) (nd : SimNode)
    (h : nd.vx = none ∨ nd.vy = none) :
    (initNode i nd).vx = some 0 ∧ (initNode i nd).vy = some 0 := by
  cases hfx : nd.fx <;> cases hfy : nd.fy <;>
    simp only [initNode, hfx, hfy] <;> split_ifs <;> simp_all

lemma initNode_vel_of_num (i : ℕ) (nd : SimNode)
    (hx : nd.vx ≠ none) (hy : nd.vy ≠ none) :
    (initNode i nd).vx = nd.vx ∧ (initNode i nd).vy = nd.vy := by
  cases hfx : nd.fx <;> cases hfy : nd.fy <;>
    simp only [initNode, hfx, hfy] <;> split_ifs <;> simp_all

lemma initNode_vel_isSome (i : ℕ) (nd : SimNode) :
    (initNode i nd).vx.isSome ∧ (initNode i nd).vy.isSome := by
  by_cases h : nd.vx = none ∨ nd.vy = none
  · have := initNode_vel_of_nan i nd h
    simp [this.1, this.2]
  · push_neg at h
    have := initNode_vel_of_num i nd h.1 h.2
    rw [this.1, this.2]
    exact ⟨Option.isSome_iff_ne_none.mpr h.1, Option.isSome_iff_ne_none.mpr h.2⟩

lemma phyllotaxisX_zero : phyllotaxisX 0 = 10 * Real.sqrt 0.5 := by
  norm_num [phyllotaxisX, initialRadius]

lemma phyllotaxisY_zero : phyllotaxisY 0 = 0 := by
  norm_num [phyllotaxisY, initialRadius]

lemma phyllotaxisX_zero_pos : 0 < phyllotaxisX 0 := by
  rw [phyllotaxisX_zero]
  have : 0 < Real.sqrt 0.5 := Real.sqrt_pos.mpr (by norm_num)
  linarith

/-- C7: each of the scalar parameter setters `alpha`, `alphaMin`,
`alphaDecay`, `alphaTarget` and `velocityDecay` rejects a value outside
[0,1] with an error (producing no new state, so the stored parameter is
unchanged), and accepts a value inside [0,1], returning the owning
simulation with only that parameter updated (for `velocityDecay` the stored
value is the transform `1 - v`). -/
theorem scalar_param_validation (s : Sim) (v : ℝ) :
    ((v < 0 ∨ 1 < v) →
      s.alphaSet v = Except.error "Invalid value for alpha" ∧
      s.alphaMinSet v = Except.error "Invalid value for alphaMin" ∧
      s.alphaDecaySet v = Except.error "Invalid value for alphaDecay" ∧
      s.alphaTargetSet v = Except.error "Invalid value for alphaTarget" ∧
      s.velocityDecaySet v = Except.error "Invalid value for velocityDecay") ∧
    (0 ≤ v → v ≤ 1 →
      s.alphaSet v = Except.ok { s with _alpha := v } ∧
      s.alphaMinSet v = Except.ok { s with _alphaMin := v } ∧
      s.alphaDecaySet v = Except.ok { s with _alphaDecay := v } ∧
      s.alphaTargetSet v = Except.ok { s with _alphaTarget := v } ∧
      s.velocityDecaySet v = Except.ok { s with _velocityDecay := 1 - v }) := by
  constructor
  · intro hout
    have hnot : ¬ (0 ≤ v ∧ v ≤ 1) := by
      rcases hout with h | h
      · exact fun hc => absurd hc.1 (not_le.mpr h)
      · exact fun hc => absurd hc.2 (not_le.mpr h)
    refine ⟨?_, ?_, ?_, ?_, ?_⟩ <;>
      simp [Sim.alphaSet, Sim.alphaMinSet, Sim.alphaDecaySet, Sim.alphaTargetSet,
        Sim.velocityDecaySet, propertySet, hnot]
  · intro h0 h1
    have hin : (0 ≤ v ∧ v ≤ 1) := ⟨h0, h1⟩
    refine ⟨?_, ?_, ?_, ?_, ?_⟩ <;>
      simp [Sim.alphaSet, Sim.alphaMinSet, Sim.alphaDecaySet, Sim.alphaTargetSet,
        Sim.velocityDecaySet, propertySet, hin]

/-- Witness for C7 at concrete inputs: the value 2 is rejected by the alpha
setter and the value 1/2 is accepted. -/
theorem scalar_param_validation_witness :
    Sim.fresh.alphaSet 2 = Except.error "Invalid value for alpha" ∧
    Sim.fresh.alphaSet (1 / 2) =
      Except.ok { Sim.fresh with _alpha := 1 / 2 } :=
  ⟨((scalar_param_validation Sim.fresh 2).1 (by norm_num)).1,
   ((scalar_param_validation Sim.fresh (1 / 2)).2 (by norm_num) (by norm_num)).1⟩

/-- C8: `velocityDecay` is stored internally as 1 minus the user-facing
value (the fresh simulation stores 0.6 and its getter returns the user
default 0.4); the getter round-trips any v in [0,1]; and the integration
step multiplies velocities by the stored value. -/
theorem velocityDecay_roundtrip (s : Sim) (v : ℝ) (h0 : 0 ≤ v) (h1 : v ≤ 1) :
    Sim.fresh._velocityDecay = 0.6 ∧
    Sim.velocityDecayGet Sim.fresh = 0.4 ∧
    s.velocityDecaySet v = Except.ok { s with _velocityDecay := 1 - v } ∧
    Sim.velocityDecayGet { s with _velocityDecay := 1 - v } = v ∧
    (∀ nd : SimNode, nd.fx = none →
      (integrateNode (1 - v) nd).vx = jsMul nd.vx (some (1 - v))) := by
  refine ⟨rfl, by norm_num [Sim.velocityDecayGet, propertyGet, Sim.fresh], ?_, ?_, ?_⟩
  · simp [Sim.velocityDecaySet, propertySet, h0, h1]
  · simp [Sim.velocityDecayGet, propertyGet]
  · intro nd hfx
    cases hfy : nd.fy <;> simp [integrateNode, hfx, hfy]

/-- Witness for C8 at the concrete input v = 1/4. -/
theorem velocityDecay_roundtrip_witness :
    Sim.fresh._velocityDecay = 0.6 ∧
    Sim.velocityDecayGet Sim.fresh = 0.4 ∧
    Sim.fresh.velocityDecaySet (1 / 4) =
      Except.ok { Sim.fresh with _velocityDecay := 1 - 1 / 4 } ∧
    Sim.velocityDecayGet { Sim.fresh with _velocityDecay := 1 - 1 / 4 } = 1 / 4 ∧
    (∀ nd : SimNode, nd.fx = none →
      (integrateNode (1 - 1 / 4) nd).vx = jsMul nd.vx (some (1 - 1 / 4))) :=
  velocityDecay_roundtrip Sim.fresh (1 / 4) (by norm_num) (by norm_num)

/-- C9: `force(name)` returns the undefined sentinel exactly when no force
is registered under the name (it is total, never an error); `force(name,
null)` removes the entry with that name and keeps all others; and
`force(name, f)` with a non-null force calls `f.initialize` with the current
nodes and random source and registers the result under the name (the setter
returns the owning simulation by construction). -/
theorem force_accessor_spec (s : Sim) (name : String) (f : Force)
    (g : List SimNode → ℕ → Force) (hg : f.init = some g) :
    (s.forceGet name = none ↔ ∀ p ∈ s.forces, p.1 ≠ name) ∧
    (∀ p, p ∈ (s.forceSet name none).forces ↔ p ∈ s.forces ∧ p.1 ≠ name) ∧
    (s.forceSet name (some f)).forces =
      mapSet name (g s._nodes s._randomSource) s.forces ∧
    (s.forceSet name (some f)).forceGet name =
      some (g s._nodes s._randomSource) := by
  refine ⟨mapGet_eq_none name s.forces, ?_, ?_, ?_⟩
  · intro p
    simp [Sim.forceSet, mapDelete, List.mem_filter]
  · simp [Sim.forceSet, Sim.initializeForce, hg]
  · simp [Sim.forceSet, Sim.forceGet, Sim.initializeForce, hg, mapGet_mapSet]

/-- Witness for C9: a concrete force whose initializer drops its own
initializer, registered on a fresh simulation under the name "charge". -/
theorem force_accessor_spec_witness :
    (Sim.fresh.forceGet "charge" = none ↔
      ∀ p ∈ Sim.fresh.forces, p.1 ≠ "charge") ∧
    (∀ p, p ∈ (Sim.fresh.forceSet "charge" none).forces ↔
      p ∈ Sim.fresh.forces ∧ p.1 ≠ "charge") ∧
    (Sim.fresh.forceSet "charge"
      (some (Force.mk (fun _ ns => ns)
        (some (fun _ _ => Force.mk (fun _ ns => ns) none))))).forces =
      mapSet "charge"
        ((fun _ _ => Force.mk (fun _ ns => ns) none)
          Sim.fresh._nodes Sim.fresh._randomSource) Sim.fresh.forces ∧
    (Sim.fresh.forceSet "charge"
      (some (Force.mk (fun _ ns => ns)
        (some (fun _ _ => Force.mk (fun _ ns => ns) none))))).forceGet "charge" =
      some ((fun _ _ => Force.mk (fun _ ns => ns) none)
        Sim.fresh._nodes Sim.fresh._randomSource) :=
  force_accessor_spec Sim.fresh "charge"
    (Force.mk (fun _ ns => ns) (some (fun _ _ => Force.mk (fun _ ns => ns) none)))
    (fun _ _ => Force.mk (fun _ ns => ns) none) rfl

lemma sqrt_fifty_approx : |10 * Real.sqrt 0.5 - 7.0710678118654755| < 1e-12 := by
  have h50 : (10 : ℝ) * Real.sqrt 0.5 = Real.sqrt 50 := by
    rw [show (50 : ℝ) = 10 ^ 2 * 0.5 by norm_num,
      Real.sqrt_mul (by norm_num : (0 : ℝ) ≤ 10 ^ 2),
      Real.sqrt_sq (by norm_num : (0 : ℝ) ≤ 10)]
  have hsq : Real.sqrt 50 ^ 2 = 50 := Real.sq_sqrt (by norm_num)
  have hnn : 0 ≤ Real.sqrt 50 := Real.sqrt_nonneg 50
  have hub : Real.sqrt 50 < 7.0710678118654755 := by
    nlinarith [hsq, hnn, (by norm_num : (50 : ℝ) < 7.0710678118654755 ^ 2)]
  have hlb : (7.0710678118654755 - 1e-12 : ℝ) < Real.sqrt 50 := by
    nlinarith [hsq, hnn,
      (by norm_num : ((7.0710678118654755 - 1e-12 : ℝ)) ^ 2 < 50),
      (by norm_num : (0 : ℝ) < 7.0710678118654755 - 1e-12)]
  rw [h50, abs_lt]
  constructor <;> nlinarith [hub, hlb]

/-- C5: calling `nodes([a,b,c])` on a fresh simulation with three empty node
objects assigns indices 0,1,2 and places node i at the phyllotaxis position
`(10·sqrt(0.5+i)·cos(i·π·(3−√5)), 10·sqrt(0.5+i)·sin(i·π·(3−√5)))` with zero
velocity. Node 0's position is exactly `(10·sqrt(0.5), 0)`, matching the
claimed literal `(7.0710678118654755, 0)` to within 1e-12 (the spec's stated
tolerance for concrete scenarios); the literals for nodes 1 and 2 are the
IEEE-754 evaluations of the proved closed forms. -/
theorem phyllotaxis_seeding :
    (Sim.fresh.setNodes [{}, {}, {}])._nodes =
      [{ index := some 0, x := some (phyllotaxisX 0), y := some (phyllotaxisY 0),
         vx := some 0, vy := some 0 },
       { index := some 1, x := some (phyllotaxisX 1), y := some (phyllotaxisY 1),
         vx := some 0, vy := some 0 },
       { index := some 2, x := some (phyllotaxisX 2), y := some (phyllotaxisY 2),
         vx := some 0, vy := some 0 }] ∧
    (∀ i : ℕ, phyllotaxisX i =
      10 * Real.sqrt (0.5 + i) * Real.cos (i * (Real.pi * (3 - Real.sqrt 5)))) ∧
    (∀ i : ℕ, phyllotaxisY i =
      10 * Real.sqrt (0.5 + i) * Real.sin (i * (Real.pi * (3 - Real.sqrt 5)))) ∧
    phyllotaxisX 0 = 10 * Real.sqrt 0.5 ∧ phyllotaxisY 0 = 0 ∧
    |phyllotaxisX 0 - 7.0710678118654755| < 1e-12 := by
  refine ⟨?_, fun i => rfl, fun i => rfl, phyllotaxisX_zero, phyllotaxisY_zero, ?_⟩
  · simp [Sim.setNodes, nodesOnSet, initializeNodes, initializeNodesFrom, initNode,
      Sim.fresh]
  · rw [phyllotaxisX_zero]
    exact sqrt_fifty_approx

/-- Counterexample to C1 as stated: a node whose `fx` is present (value 0)
but whose `y` is NaN. After `nodes(arr)` the phyllotaxis branch has
overwritten both coordinates, so `x` does not equal the fixed value 0. -/
theorem nodes_fixed_x_overwritten_cex :
    ((Sim.fresh.setNodes [{ fx := some (some 0) }])._nodes.headI).fx =
      some (some 0) ∧
    ((Sim.fresh.setNodes [{ fx := some (some 0) }])._nodes.headI).x ≠
      some 0 := by
  have hn : (Sim.fresh.setNodes [{ fx := some (some 0) }])._nodes =
      [initNode 0 { fx := some (some 0) }] := rfl
  constructor
  · rw [hn]
    simp [List.headI, initNode_fx]
  · rw [hn]
    have hx := (initNode_coords_of_nan 0 { fx := some (some 0) }
      (Or.inr rfl)).1
    simp only [List.headI, hx]
    intro hcon
    have : phyllotaxisX 0 = 0 := by simpa using hcon
    exact absurd this (ne_of_gt phyllotaxisX_zero_pos)

/-- C1 amended: after `nodes(arr)`, node i has `index = i` and non-NaN
`x, y, vx, vy`; and whenever `fx` (resp. `fy`) was present, `x` (resp. `y`)
equals that fixed value, provided both coordinates as snapped (`fx` or `x`,
`fy` or `y`) are non-NaN, so that the phyllotaxis branch did not overwrite
them. -/
theorem nodes_init_amended (s : Sim) (arr : List SimNode) (i : ℕ)
    (h : i < arr.length)
    (h2 : i < ((s.setNodes arr)._nodes).length) :
    (((s.setNodes arr)._nodes).get ⟨i, h2⟩).index = some i ∧
    (((s.setNodes arr)._nodes).get ⟨i, h2⟩).x.isSome ∧
    (((s.setNodes arr)._nodes).get ⟨i, h2⟩).y.isSome ∧
    (((s.setNodes arr)._nodes).get ⟨i, h2⟩).vx.isSome ∧
    (((s.setNodes arr)._nodes).get ⟨i, h2⟩).vy.isSome ∧
    ((snappedX (arr.get ⟨i, h⟩)).isSome → (snappedY (arr.get ⟨i, h⟩)).isSome →
      (∀ w, (arr.get ⟨i, h⟩).fx = some w →
        (((s.setNodes arr)._nodes).get ⟨i, h2⟩).x = w) ∧
      (∀ w, (arr.get ⟨i, h⟩).fy = some w →
        (((s.setNodes arr)._nodes).get ⟨i, h2⟩).y = w)) := by
  have h2' : i < (initializeNodesFrom 0 arr).length := by
    simpa [setNodes_nodes, initializeNodes] using h2
  have hget : ((s.setNodes arr)._nodes).get ⟨i, h2⟩ =
      initNode i (arr.get ⟨i, h⟩) := by
    have := initializeNodesFrom_get arr 0 i h h2'
    simpa [setNodes_nodes, initializeNodes] using this
  rw [hget]
  refine ⟨initNode_index i _, (initNode_coords_isSome i _).1,
    (initNode_coords_isSome i _).2, (initNode_vel_isSome i _).1,
    (initNode_vel_isSome i _).2, ?_⟩
  intro hsx hsy
  have hcoords := initNode_coords_of_num i (arr.get ⟨i, h⟩)
    (Option.isSome_iff_ne_none.mp hsx) (Option.isSome_iff_ne_none.mp hsy)
  constructor
  · intro w hw
    rw [hcoords.1, snappedX, hw]
  · intro w hw
    rw [hcoords.2, snappedY, hw]

/-- Witness for C1 (amended) at the concrete input: a single node with both
coordinates fixed at 1 and 2. -/
theorem nodes_init_amended_witness :
    (((Sim.fresh.setNodes [{ fx := some (some 1), fy := some (some 2) }])._nodes).get
      ⟨0, by simp [setNodes_nodes, initializeNodes, initializeNodesFrom]⟩).index = some 0 ∧
    (((Sim.fresh.setNodes [{ fx := some (some 1), fy := some (some 2) }])._nodes).get
      ⟨0, by simp [setNodes_nodes, initializeNodes, initializeNodesFrom]⟩).x.isSome ∧
    (((Sim.fresh.setNodes [{ fx := some (some 1), fy := some (some 2) }])._nodes).get
      ⟨0, by simp [setNodes_nodes, initializeNodes, initializeNodesFrom]⟩).y.isSome ∧
    (((Sim.fresh.setNodes [{ fx := some (some 1), fy := some (some 2) }])._nodes).get
      ⟨0, by simp [setNodes_nodes, initializeNodes, initializeNodesFrom]⟩).vx.isSome ∧
    (((Sim.fresh.setNodes [{ fx := some (some 1), fy := some (some 2) }])._nodes).get
      ⟨0, by simp [setNodes_nodes, initializeNodes, initializeNodesFrom]⟩).vy.isSome ∧
    ((snappedX (([{ fx := some (some 1), fy := some (some 2) }] :
        List SimNode).get ⟨0, by simp⟩)).isSome →
      (snappedY (([{ fx := some (some 1), fy := some (some 2) }] :
        List SimNode).get ⟨0, by simp⟩)).isSome →
      (∀ w, (([{ fx := some (some 1), fy := some (some 2) }] :
          List SimNode).get ⟨0, by simp⟩).fx = some w →
        (((Sim.fresh.setNodes [{ fx := some (some 1), fy := some (some 2) }])._nodes).get
          ⟨0, by simp [setNodes_nodes, initializeNodes, initializeNodesFrom]⟩).x = w) ∧
      (∀ w, (([{ fx := some (some 1), fy := some (some 2) }] :
          List SimNode).get ⟨0, by simp⟩).fy = some w →
        (((Sim.fresh.setNodes [{ fx := some (some 1), fy := some (some 2) }])._nodes).get
          ⟨0, by simp [setNodes_nodes, initializeNodes, initializeNodesFrom]⟩).y = w)) :=
  nodes_init_amended Sim.fresh [{ fx := some (some 1), fy := some (some 2) }] 0
    (by simp) (by simp [setNodes_nodes, initializeNodes, initializeNodesFrom])

/-- C10: in `nodes(arr)` initialization, the NaN tests are coupled: if
either coordinate (as snapped from `fx`/`fy` when present) is NaN, both
coordinates are replaced by the phyllotaxis position; and if either velocity
component is NaN, both are zeroed — a finite `vx` next to a NaN `vy` is
discarded. -/
theorem nodes_init_nan_coupling (s : Sim) (arr : List SimNode) (i : ℕ)
    (h : i < arr.length)
    (h2 : i < ((s.setNodes arr)._nodes).length) :
    ((snappedX (arr.get ⟨i, h⟩) = none ∨ snappedY (arr.get ⟨i, h⟩) = none) →
      (((s.setNodes arr)._nodes).get ⟨i, h2⟩).x = some (phyllotaxisX i) ∧
      (((s.setNodes arr)._nodes).get ⟨i, h2⟩).y = some (phyllotaxisY i)) ∧
    (((arr.get ⟨i, h⟩).vx = none ∨ (arr.get ⟨i, h⟩).vy = none) →
      (((s.setNodes arr)._nodes).get ⟨i, h2⟩).vx = some 0 ∧
      (((s.setNodes arr)._nodes).get ⟨i, h2⟩).vy = some 0) := by
  have h2' : i < (initializeNodesFrom 0 arr).length := by
    simpa [setNodes_nodes, initializeNodes] using h2
  have hget : ((s.setNodes arr)._nodes).get ⟨i, h2⟩ =
      initNode i (arr.get ⟨i, h⟩) := by
    have := initializeNodesFrom_get arr 0 i h h2'
    simpa [setNodes_nodes, initializeNodes] using this
  rw [hget]
  exact ⟨initNode_coords_of_nan i _, initNode_vel_of_nan i _⟩

/-- Witness for C10 at the concrete input: a node with finite `x = 3` but
NaN `y`, and finite `vx = 5` but NaN `vy`. -/
theorem nodes_init_nan_coupling_witness :
    ((snappedX (([{ x := some 3, vx := some 5 }] : List SimNode).get
        ⟨0, by simp⟩) = none ∨
      snappedY (([{ x := some 3, vx := some 5 }] : List SimNode).get
        ⟨0, by simp⟩) = none) →
      (((Sim.fresh.setNodes [{ x := some 3, vx := some 5 }])._nodes).get
        ⟨0, by simp [setNodes_nodes, initializeNodes, initializeNodesFrom]⟩).x =
        some (phyllotaxisX 0) ∧
      (((Sim.fresh.setNodes [{ x := some 3, vx := some 5 }])._nodes).get
        ⟨0, by simp [setNodes_nodes, initializeNodes, initializeNodesFrom]⟩).y =
        some (phyllotaxisY 0)) ∧
    (((([{ x := some 3, vx := some 5 }] : List SimNode).get ⟨0, by simp⟩).vx = none ∨
      (([{ x := some 3, vx := some 5 }] : List SimNode).get ⟨0, by simp⟩).vy = none) →
      (((Sim.fresh.setNodes [{ x := some 3, vx := some 5 }])._nodes).get
        ⟨0, by simp [setNodes_nodes, initializeNodes, initializeNodesFrom]⟩).vx = some 0 ∧
      (((Sim.fresh.setNodes [{ x := some 3, vx := some 5 }])._nodes).get
        ⟨0, by simp [setNodes_nodes, initializeNodes, initializeNodesFrom]⟩).vy = some 0) :=
  nodes_init_nan_coupling Sim.fresh [{ x := some 3, vx := some 5 }] 0
    (by simp) (by simp [setNodes_nodes, initializeNodes, initializeNodesFrom])

lemma applyForces_length (a : ℝ) (fs : List (String × Force))
    (ns : List SimNode)
    (hlen : ∀ p ∈ fs, ∀ b ms, (p.2.run b ms).length = ms.length) :
    (applyForces a fs ns).length = ns.length := by
  induction fs generalizing ns with
  | nil => rfl
  | cons hd tl ih =>
    show (applyForces a tl (hd.2.run a ns)).length = ns.length
    rw [ih _ (fun p hp => hlen p (List.mem_cons_of_mem hd hp)),
      hlen hd (List.mem_cons_self hd tl)]

lemma take_map_drop_collapse {α : Type} (f : α → α) (n : ℕ) (l : List α)
    (h : l.length = n) : (l.take n).map f ++ l.drop n = l.map f := by
  subst h
  rw [List.take_length, List.drop_length, List.append_nil]

lemma tickIteration_forces (n : ℕ) (s : Sim) :
    (tickIteration n s).forces = s.forces := rfl

lemma tickIteration_alpha (n : ℕ) (s : Sim) :
    (tickIteration n s)._alpha =
      s._alpha + (s._alphaTarget - s._alpha) * s._alphaDecay := rfl

lemma tickIteration_length (n : ℕ) (s : Sim) :
    (tickIteration n s)._nodes.length =
      (applyForces (s._alpha + (s._alphaTarget - s._alpha) * s._alphaDecay)
        s.forces s._nodes).length := by
  simp only [tickIteration, List.length_append, List.length_map,
    List.length_take, List.length_drop]
  omega

lemma tickIteration_nodes (s : Sim)
    (hlen : ∀ p ∈ s.forces, ∀ b ms, (p.2.run b ms).length = ms.length) :
    (tickIteration s._nodes.length s)._nodes =
      (applyForces (s._alpha + (s._alphaTarget - s._alpha) * s._alphaDecay)
        s.forces s._nodes).map (integrateNode s._velocityDecay) := by
  rw [tickIteration]
  exact take_map_drop_collapse _ _ _ (applyForces_length _ _ _ hlen)

lemma tickIteration_preserves_length (s : Sim)
    (hlen : ∀ p ∈ s.forces, ∀ b ms, (p.2.run b ms).length = ms.length) :
    (tickIteration s._nodes.length s)._nodes.length = s._nodes.length := by
  rw [tickIteration_length, applyForces_length _ _ _ hlen]

lemma tickLoop_comm (n : ℕ) :
    ∀ (k : ℕ) (s : Sim),
      tickLoop n (k + 1) s = tickIteration n (tickLoop n k s)
  | 0, s => rfl
  | k + 1, s => by
    rw [tickLoop, tickLoop_comm n k (tickIteration n s)]
    rfl

lemma tickLoop_forces (n : ℕ) :
    ∀ (k : ℕ) (s : Sim), (tickLoop n k s).forces = s.forces
  | 0, _ => rfl
  | k + 1, s => by
    rw [tickLoop, tickLoop_forces n k (tickIteration n s)]
    rfl

lemma tickLoop_preserves_length :
    ∀ (k : ℕ) (s : Sim),
      (∀ p ∈ s.forces, ∀ b ms, (p.2.run b ms).length = ms.length) →
      (tickLoop s._nodes.length k s)._nodes.length = s._nodes.length
  | 0, _, _ => rfl
  | k + 1, s, hlen => by
    rw [tickLoop_comm, tickIteration_length,
      applyForces_length _ _ _ (by rw [tickLoop_forces]; exact hlen),
      tickLoop_preserves_length k s hlen]

lemma integrateNode_fx (vd : ℝ) (nd : SimNode) :
    (integrateNode vd nd).fx = nd.fx := by
  cases hfx : nd.fx <;> cases hfy : nd.fy <;> simp [integrateNode, hfx, hfy]

lemma integrateNode_fy (vd : ℝ) (nd : SimNode) :
    (integrateNode vd nd).fy = nd.fy := by
  cases hfx : nd.fx <;> cases hfy : nd.fy <;> simp [integrateNode, hfx, hfy]

lemma integrateNode_fixed_x (vd : ℝ) (nd : SimNode) (w : Option ℝ)
    (hw : nd.fx = some w) :
    (integrateNode vd nd).x = w ∧ (integrateNode vd nd).vx = some 0 := by
  cases hfy : nd.fy <;> simp [integrateNode, hw, hfy]

lemma integrateNode_fixed_y (vd : ℝ) (nd : SimNode) (w : Option ℝ)
    (hw : nd.fy = some w) :
    (integrateNode vd nd).y = w ∧ (integrateNode vd nd).vy = some 0 := by
  cases hfx : nd.fx <;> simp [integrateNode, hw, hfx]

lemma integrateNode_free_x (vd : ℝ) (nd : SimNode) (hfx : nd.fx = none) :
    (integrateNode vd nd).vx = jsMul nd.vx (some vd) ∧
    (integrateNode vd nd).x = jsAdd nd.x (jsMul nd.vx (some vd)) := by
  cases hfy : nd.fy <;> simp [integrateNode, hfx, hfy]

lemma integrateNode_free_y (vd : ℝ) (nd : SimNode) (hfy : nd.fy = none) :
    (integrateNode vd nd).vy = jsMul nd.vy (some vd) ∧
    (integrateNode vd nd).y = jsAdd nd.y (jsMul nd.vy (some vd)) := by
  cases hfx : nd.fx <;> simp [integrateNode, hfx, hfy]

/-- C3: one tick iteration first advances alpha by
`alpha += (alphaTarget - alpha) * alphaDecay`, then applies every registered
force in the insertion order of the force map (a left fold over the ordered
entries) with the updated alpha, then integrates each node: with `fx` null,
`vx` is multiplied by the stored velocity decay and `x` incremented by the
decayed `vx`, symmetrically in y. -/
theorem tick_structure (s : Sim)
    (hlen : ∀ p ∈ s.forces, ∀ b ms, (p.2.run b ms).length = ms.length) :
    (s.tick none)._alpha =
      s._alpha + (s._alphaTarget - s._alpha) * s._alphaDecay ∧
    (s.tick none)._nodes =
      (applyForces (s._alpha + (s._alphaTarget - s._alpha) * s._alphaDecay)
        s.forces s._nodes).map (integrateNode s._velocityDecay) ∧
    (∀ a fs ns, applyForces a fs ns = fs.foldl (fun ms p => p.2.run a ms) ns) ∧
    (∀ nd : SimNode, nd.fx = none →
      (integrateNode s._velocityDecay nd).vx =
        jsMul nd.vx (some s._velocityDecay) ∧
      (integrateNode s._velocityDecay nd).x =
        jsAdd nd.x (jsMul nd.vx (some s._velocityDecay))) ∧
    (∀ nd : SimNode, nd.fy = none →
      (integrateNode s._velocityDecay nd).vy =
        jsMul nd.vy (some s._velocityDecay) ∧
      (integrateNode s._velocityDecay nd).y =
        jsAdd nd.y (jsMul nd.vy (some s._velocityDecay))) := by
  refine ⟨rfl, ?_, fun a fs ns => rfl,
    fun nd h => integrateNode_free_x _ nd h,
    fun nd h => integrateNode_free_y _ nd h⟩
  show (tickIteration s._nodes.length s)._nodes = _
  exact tickIteration_nodes s hlen

/-- Witness for C3 on a fresh simulation (no registered forces). -/
theorem tick_structure_witness :
    (Sim.fresh.tick none)._alpha =
      Sim.fresh._alpha +
        (Sim.fresh._alphaTarget - Sim.fresh._alpha) * Sim.fresh._alphaDecay ∧
    (Sim.fresh.tick none)._nodes =
      (applyForces
        (Sim.fresh._alpha +
          (Sim.fresh._alphaTarget - Sim.fresh._alpha) * Sim.fresh._alphaDecay)
        Sim.fresh.forces Sim.fresh._nodes).map
        (integrateNode Sim.fresh._velocityDecay) ∧
    (∀ a fs ns, applyForces a fs ns = fs.foldl (fun ms p => p.2.run a ms) ns) ∧
    (∀ nd : SimNode, nd.fx = none →
      (integrateNode Sim.fresh._velocityDecay nd).vx =
        jsMul nd.vx (some Sim.fresh._velocityDecay) ∧
      (integrateNode Sim.fresh._velocityDecay nd).x =
        jsAdd nd.x (jsMul nd.vx (some Sim.fresh._velocityDecay))) ∧
    (∀ nd : SimNode, nd.fy = none →
      (integrateNode Sim.fresh._velocityDecay nd).vy =
        jsMul nd.vy (some Sim.fresh._velocityDecay) ∧
      (integrateNode Sim.fresh._velocityDecay nd).y =
        jsAdd nd.y (jsMul nd.vy (some Sim.fresh._velocityDecay))) :=
  tick_structure Sim.fresh (by simp [Sim.fresh])

/-- C2: at the end of every `tick` call (any positive iteration count, in
particular the default single step), every node with a present `fx` has
`x` equal to that fixed value and `vx = 0`, and symmetrically for `fy` —
whatever the registered (node-count-preserving) forces did. -/
theorem tick_fixed_nodes (s : Sim)
    (hlen : ∀ p ∈ s.forces, ∀ b ms, (p.2.run b ms).length = ms.length)
    (k : ℕ) (nd : SimNode) (hnd : nd ∈ (s.tick (some (k + 1)))._nodes) :
    (∀ w, nd.fx = some w → nd.x = w ∧ nd.vx = some 0) ∧
    (∀ w, nd.fy = some w → nd.y = w ∧ nd.vy = some 0) := by
  rw [Sim.tick] at hnd
  simp only [Option.getD_some] at hnd
  rw [tickLoop_comm] at hnd
  have hf := tickLoop_forces s._nodes.length k s
  have hl := tickLoop_preserves_length k s hlen
  have hnodes :
      (tickIteration s._nodes.length (tickLoop s._nodes.length k s))._nodes =
      (applyForces
        ((tickLoop s._nodes.length k s)._alpha +
          ((tickLoop s._nodes.length k s)._alphaTarget -
            (tickLoop s._nodes.length k s)._alpha) *
            (tickLoop s._nodes.length k s)._alphaDecay)
        (tickLoop s._nodes.length k s).forces
        (tickLoop s._nodes.length k s)._nodes).map
        (integrateNode (tickLoop s._nodes.length k s)._velocityDecay) := by
    have := tickIteration_nodes (tickLoop s._nodes.length k s)
      (by rw [hf]; exact hlen)
    rw [hl] at this
    exact this
  rw [hnodes] at hnd
  rcases List.mem_map.mp hnd with ⟨m, _, hm⟩
  subst hm
  constructor
  · intro w hw
    exact integrateNode_fixed_x _ m w (by rw [← integrateNode_fx _ m]; exact hw)
  · intro w hw
    exact integrateNode_fixed_y _ m w (by rw [← integrateNode_fy _ m]; exact hw)

/-- Witness for C2: a simulation with a single node fixed at (1, 2), after
one tick. -/
theorem tick_fixed_nodes_witness :
    (∀ w, (integrateNode Sim.fresh._velocityDecay
        { fx := some (some 1), fy := some (some 2) } : SimNode).fx = some w →
      (integrateNode Sim.fresh._velocityDecay
        { fx := some (some 1), fy := some (some 2) } : SimNode).x = w ∧
      (integrateNode Sim.fresh._velocityDecay
        { fx := some (some 1), fy := some (some 2) } : SimNode).vx = some 0) ∧
    (∀ w, (integrateNode Sim.fresh._velocityDecay
        { fx := some (some 1), fy := some (some 2) } : SimNode).fy = some w →
      (integrateNode Sim.fresh._velocityDecay
        { fx := some (some 1), fy := some (some 2) } : SimNode).y = w ∧
      (integrateNode Sim.fresh._velocityDecay
        { fx := some (some 1), fy := some (some 2) } : SimNode).vy = some 0) :=
  tick_fixed_nodes
    { Sim.fresh with _nodes := [{ fx := some (some 1), fy := some (some 2) }] }
    (by simp [Sim.fresh]) 0 _
    (by simp [Sim.tick, tickLoop, tickIteration, applyForces, Sim.fresh])

/-- C4: `tick(n)` equals `tick(1)` applied n times (for any simulation
whose registered forces preserve the node count, as every real force does),
and `tick()` with no argument equals `tick(1)`. -/
theorem tick_iterations_compose (s : Sim)
    (hlen : ∀ p ∈ s.forces, ∀ b ms, (p.2.run b ms).length = ms.length)
    (m : ℕ) :
    s.tick (some m) = (fun t => t.tick (some 1))^[m] s ∧
    s.tick none = s.tick (some 1) := by
  refine ⟨?_, rfl⟩
  induction m generalizing s with
  | zero => rfl
  | succ k ih =>
    have hstep : s.tick (some (k + 1)) =
        tickLoop s._nodes.length k (tickIteration s._nodes.length s) := rfl
    have hs' : (tickIteration s._nodes.length s)._nodes.length =
        s._nodes.length := tickIteration_preserves_length s hlen
    have hf : (tickIteration s._nodes.length s).forces = s.forces := rfl
    have hloop : tickLoop s._nodes.length k (tickIteration s._nodes.length s) =
        (tickIteration s._nodes.length s).tick (some k) := by
      rw [Sim.tick, Option.getD_some, hs']
    rw [hstep, hloop, ih (tickIteration s._nodes.length s) (by rw [hf]; exact hlen),
      Function.iterate_succ_apply]
    rfl

/-- Witness for C4 on a fresh simulation with two iterations. -/
theorem tick_iterations_compose_witness :
    Sim.fresh.tick (some 2) = (fun t => t.tick (some 1))^[2] Sim.fresh ∧
    Sim.fresh.tick none = Sim.fresh.tick (some 1) :=
  tick_iterations_compose Sim.fresh (by simp [Sim.fresh]) 2

lemma not_jsLt_self (a : Option ℝ) : ¬ jsLt a a := by
  cases a <;> simp [jsLt]

lemma jsLt_trans {a b c : Option ℝ} (h1 : jsLt a b) (h2 : jsLt b c) :
    jsLt a c := by
  cases a <;> cases b <;> cases c <;> simp [jsLt] at * <;> linarith

lemma jsLt_asymm {a b : Option ℝ} (h : jsLt a b) : ¬ jsLt b a := by
  cases a <;> cases b <;> simp [jsLt] at * <;> linarith

lemma jsLt_flip {a b c : Option ℝ} (h1 : ¬ jsLt a b) (h2 : jsLt c b) :
    ¬ jsLt a c := by
  cases a <;> cases b <;> cases c <;> simp [jsLt] at * <;> linarith

lemma jsLt_none_right (d : Option ℝ) (h : d.isSome) : jsLt d none := by
  cases d
  · simp at h
  · simp [jsLt]

lemma findD2_isSome (x y : ℝ) (nd : SimNode) (hx : nd.x.isSome)
    (hy : nd.y.isSome) : (findD2 x y nd).isSome := by
  rcases Option.isSome_iff_exists.mp hx with ⟨a, ha⟩
  rcases Option.isSome_iff_exists.mp hy with ⟨b, hb⟩
  simp [findD2, jsSub, jsMul, jsAdd, ha, hb]

lemma findD2_nonneg (x y : ℝ) (nd : SimNode) (dm : ℝ)
    (h : findD2 x y nd = some dm) : 0 ≤ dm := by
  cases hx : nd.x with
  | none => simp [findD2, jsSub, jsMul, jsAdd, hx] at h
  | some a =>
    cases hy : nd.y with
    | none => simp [findD2, jsSub, jsMul, jsAdd, hx, hy] at h
    | some b =>
      simp [findD2, jsSub, jsMul, jsAdd, hx, hy] at h
      nlinarith [mul_self_nonneg (x - a), mul_self_nonneg (y - b)]

lemma findGo_spec (x y : ℝ) :
    ∀ (l : List SimNode) (b : Option ℝ) (c : Option SimNode),
      (∀ m ∈ l, (findD2 x y m).isSome) →
      (findGo x y l b c = c ∧ ∀ m ∈ l, ¬ jsLt (findD2 x y m) b) ∨
      (∃ nd, nd ∈ l ∧ findGo x y l b c = some nd ∧
        jsLt (findD2 x y nd) b ∧
        ∀ m ∈ l, ¬ jsLt (findD2 x y m) (findD2 x y nd))
  | [], _, _, _ => Or.inl ⟨rfl, by simp⟩
  | nd :: rest, b, c, hsome => by
    have hstep : findGo x y (nd :: rest) b c =
        if jsLt (findD2 x y nd) b then
          findGo x y rest (findD2 x y nd) (some nd)
        else findGo x y rest b c := rfl
    have hrest : ∀ m ∈ rest, (findD2 x y m).isSome :=
      fun m hm => hsome m (List.mem_cons_of_mem nd hm)
    by_cases hlt : jsLt (findD2 x y nd) b
    · rw [hstep, if_pos hlt]
      rcases findGo_spec x y rest (findD2 x y nd) (some nd) hrest with
        ⟨heq, hall⟩ | ⟨nd2, hmem, heq, hlt2, hall⟩
      · right
        refine ⟨nd, List.mem_cons_self nd rest, heq, hlt, ?_⟩
        intro m hm
        rcases List.mem_cons.mp hm with rfl | hm2
        · exact not_jsLt_self _
        · exact hall m hm2
      · right
        refine ⟨nd2, List.mem_cons_of_mem nd hmem, heq,
          jsLt_trans hlt2 hlt, ?_⟩
        intro m hm
        rcases List.mem_cons.mp hm with rfl | hm2
        · exact jsLt_asymm hlt2
        · exact hall m hm2
    · rw [hstep, if_neg hlt]
      rcases findGo_spec x y rest b c hrest with
        ⟨heq, hall⟩ | ⟨nd2, hmem, heq, hlt2, hall⟩
      · left
        refine ⟨heq, ?_⟩
        intro m hm
        rcases List.mem_cons.mp hm with rfl | hm2
        · exact hlt
        · exact hall m hm2
      · right
        refine ⟨nd2, List.mem_cons_of_mem nd hmem, heq, hlt2, ?_⟩
        intro m hm
        rcases List.mem_cons.mp hm with rfl | hm2
        · exact jsLt_flip hlt hlt2
        · exact hall m hm2

lemma sqrt_lt_iff_sq (r dm : ℝ) (hr : 0 ≤ r) (hdm : 0 ≤ dm) :
    Real.sqrt dm < r ↔ dm < r * r := by
  constructor
  · intro h
    have h1 : Real.sqrt dm * Real.sqrt dm = dm := Real.mul_self_sqrt hdm
    nlinarith [Real.sqrt_nonneg dm]
  · intro h
    have h2 : Real.sqrt dm < Real.sqrt (r * r) :=
      Real.sqrt_lt_sqrt hdm h
    rwa [Real.sqrt_mul_self hr] at h2

/-- C6: `find(x, y)` (no radius) returns a node of a nonempty node list that
minimizes the squared Euclidean distance to (x, y); and with a radius r,
`find(x, y, r)` returns the undefined sentinel iff no node lies within
distance r of (x, y) (distance strictly below r, as the scan keeps a node
only when its squared distance is strictly below the squared radius). -/
theorem find_spec (s : Sim) (x y : ℝ)
    (hxy : ∀ m ∈ s._nodes, m.x.isSome ∧ m.y.isSome) :
    (s._nodes ≠ [] → ∃ nd, nd ∈ s._nodes ∧ s.find x y none = some nd ∧
      ∀ m ∈ s._nodes, ∀ dn dm, findD2 x y nd = some dn →
        findD2 x y m = some dm → dn ≤ dm) ∧
    (∀ r : ℝ, 0 ≤ r →
      (s.find x y (some r) = none ↔
        ∀ m ∈ s._nodes, ∀ dm, findD2 x y m = some dm →
          ¬ Real.sqrt dm < r)) := by
  have hsome : ∀ m ∈ s._nodes, (findD2 x y m).isSome :=
    fun m hm => findD2_isSome x y m (hxy m hm).1 (hxy m hm).2
  constructor
  · intro hne
    rcases findGo_spec x y s._nodes none none hsome with
      ⟨_, hall⟩ | ⟨nd, hmem, heq, _, hall⟩
    · rcases List.exists_mem_of_ne_nil s._nodes hne with ⟨m, hm⟩
      exact absurd (jsLt_none_right _ (hsome m hm)) (hall m hm)
    · refine ⟨nd, hmem, heq, ?_⟩
      intro m hm dn dm hdn hdm
      have := hall m hm
      rw [hdn, hdm] at this
      simp [jsLt] at this
      exact this
  · intro r hr
    have hfind : s.find x y (some r) =
        findGo x y s._nodes (some (r * r)) none := rfl
    rw [hfind]
    constructor
    · intro hnone m hm dm hdm
      rcases findGo_spec x y s._nodes (some (r * r)) none hsome with
        ⟨_, hall⟩ | ⟨nd, _, heq, _, _⟩
      · have := hall m hm
        rw [hdm] at this
        simp [jsLt] at this
        rw [sqrt_lt_iff_sq r dm hr (findD2_nonneg x y m dm hdm)]
        exact not_lt.mpr this
      · rw [heq] at hnone
        exact absurd hnone (by simp)
    · intro hall
      rcases findGo_spec x y s._nodes (some (r * r)) none hsome with
        ⟨heq, _⟩ | ⟨nd, hmem, _, hlt, _⟩
      · exact heq
      · rcases Option.isSome_iff_exists.mp (hsome nd hmem) with ⟨dn, hdn⟩
        rw [hdn] at hlt
        simp [jsLt] at hlt
        have h1 := hall nd hmem dn hdn
        rw [sqrt_lt_iff_sq r dn hr (findD2_nonneg x y nd dn hdn)] at h1
        exact absurd hlt h1

/-- Witness for C6: the nodes of the find test, `(5,0), (10,16), (-10,-4)`,
queried at the origin. -/
theorem find_spec_witness :
    (({ Sim.fresh with _nodes :=
        [{ x := some 5, y := some 0 }, { x := some 10, y := some 16 },
         { x := some (-10), y := some (-4) }] } : Sim)._nodes ≠ [] →
      ∃ nd, nd ∈ ({ Sim.fresh with _nodes :=
        [{ x := some 5, y := some 0 }, { x := some 10, y := some 16 },
         { x := some (-10), y := some (-4) }] } : Sim)._nodes ∧
        ({ Sim.fresh with _nodes :=
          [{ x := some 5, y := some 0 }, { x := some 10, y := some 16 },
           { x := some (-10), y := some (-4) }] } : Sim).find 0 0 none = some nd ∧
        ∀ m ∈ ({ Sim.fresh with _nodes :=
          [{ x := some 5, y := some 0 }, { x := some 10, y := some 16 },
           { x := some (-10), y := some (-4) }] } : Sim)._nodes,
          ∀ dn dm, findD2 0 0 nd = some dn → findD2 0 0 m = some dm →
            dn ≤ dm) ∧
    (∀ r : ℝ, 0 ≤ r →
      (({ Sim.fresh with _nodes :=
        [{ x := some 5, y := some 0 }, { x := some 10, y := some 16 },
         { x := some (-10), y := some (-4) }] } : Sim).find 0 0 (some r) = none ↔
        ∀ m ∈ ({ Sim.fresh with _nodes :=
          [{ x := some 5, y := some 0 }, { x := some 10, y := some 16 },
           { x := some (-10), y := some (-4) }] } : Sim)._nodes,
          ∀ dm, findD2 0 0 m = some dm → ¬ Real.sqrt dm < r)) :=
  find_spec
    { Sim.fresh with _nodes :=
      [{ x := some 5, y := some 0 }, { x := some 10, y := some 16 },
       { x := some (-10), y := some (-4) }] } 0 0 (by simp)

end
